import Mathlib

/-!
Verification of the rust-mls-worker core (src/rust-mls-worker/src/lib.rs): the
event dispatcher `processEvent`, the frame transform pipeline `process_stream`,
the frame accessor `get_frame_data` / `set_frame_data`, and the response
marshaling block, as a shallow embedding in Lean. The `mls_ops` module
(GroupEngine) is declared in lib.rs but its source file is not under src/, so
its operations are modelled from the specification and marked as such.
-/

set_option autoImplicit false

namespace MlsWorker

/-- Byte contents of a JS ArrayBuffer / Uint8Array, one Nat per byte. -/
abbrev Bytes := List Nat

/-- Panic sites of the worker, named with the specification fault taxonomy: a
failed unwrap while extracting a command field is `MalformedEventFault`, the
explicit panic on an unknown message type is `UnknownCommandFault`, and the
panic "frame value of unknown type" in the frame accessor is
`UnrecognizedFrameTypeFault`. -/
inductive Fault where
  | malformedEvent
  | unknownCommand
  | unrecognizedFrameType
deriving DecidableEq, Repr

/-- Value delivered by a read from the input frame stream: an
RtcEncodedAudioFrame or RtcEncodedVideoFrame (payload bytes plus opaque
host-owned metadata), the undefined value (what a ReadableStreamDefaultReader
delivers as `value` on the end-of-stream read), or some other JS value that is
neither frame kind. -/
inductive FrameValue where
  | audio (data : Bytes) (metadata : Bytes)
  | video (data : Bytes) (metadata : Bytes)
  | undef
  | other
deriving DecidableEq, Repr

/-- JS values appearing as fields of a command envelope object. A readable
stream is represented by the sequence of read results (value, done) its
default reader delivers; a writable stream has no observable content here. -/
inductive JsValue where
  | undef
  | str (s : String)
  | num (n : Int)
  | boolean (b : Bool)
  | arrayBuffer (data : Bytes)
  | readableStream (reads : List (FrameValue × Bool))
  | writableStream
deriving DecidableEq, Repr

/-- Reflect.get on the event object: the field value, or `undefined` when the
property is absent (Reflect.get does not throw on a missing property, so the
surrounding `.unwrap()` in lib.rs always succeeds). -/
def obj_get (o : List (String × JsValue)) (k : String) : JsValue :=
  match o.lookup k with
  | some v => v
  | none => JsValue.undef

/-- JsValue::as_string: some string exactly when the value is a JS string. -/
def as_string : JsValue → Option String
  | JsValue.str s => some s
  | _ => none

/-- dyn_into::&lt;ArrayBuffer&gt; followed by Uint8Array::new().to_vec():
the byte contents, or a failed cast on any non-ArrayBuffer value. -/
def as_array_buffer : JsValue → Option Bytes
  | JsValue.arrayBuffer b => some b
  | _ => none

/-- dyn_into::&lt;ReadableStream&gt;: the read results of the stream, or a
failed cast on any other value. -/
def as_readable_stream : JsValue → Option (List (FrameValue × Bool))
  | JsValue.readableStream rs => some rs
  | _ => none

/-- dyn_into::&lt;WritableStream&gt;: succeeds exactly on a writable stream. -/
def as_writable_stream : JsValue → Option Unit
  | JsValue.writableStream => some ()
  | _ => none

/-- get_frame_data (lib.rs 19-29): the byte contents of a supported frame;
`none` models the panic "frame value of unknown type" on any other value. -/
def get_frame_data : FrameValue → Option Bytes
  | FrameValue.audio d _ => some d
  | FrameValue.video d _ => some d
  | _ => none

/-- set_frame_data (lib.rs 32-47): copy `new_data` into a fresh ArrayBuffer and
store it as the frame data via frame.set_data, leaving the frame kind and all
other host-owned metadata untouched; `none` models the panic "frame value of
unknown type" on any other value. -/
def set_frame_data : FrameValue → Bytes → Option FrameValue
  | FrameValue.audio _ m, new_data => some (FrameValue.audio new_data m)
  | FrameValue.video _ m, new_data => some (FrameValue.video new_data m)
  | _, _ => none

/-- Outcome of the process_stream loop: the loop broke out normally, it
panicked with a fault, or it suspends forever awaiting a read that never
resolves. Each outcome carries the frames written to the output stream before
that point, in write order. -/
inductive StreamOutcome where
  | returned (written : List FrameValue)
  | faulted (written : List FrameValue) (fault : Fault)
  | suspended (written : List FrameValue)
deriving DecidableEq, Repr

/-- Frames already written to the output stream stay written whatever the loop
does afterwards; this prepends earlier writes to a later outcome. -/
def prependWritten (w : List FrameValue) : StreamOutcome → StreamOutcome
  | StreamOutcome.returned w2 => StreamOutcome.returned (w ++ w2)
  | StreamOutcome.faulted w2 fl => StreamOutcome.faulted (w ++ w2) fl
  | StreamOutcome.suspended w2 => StreamOutcome.suspended (w ++ w2)

/-- process_stream (lib.rs 176-212), as a function of the read results the
reader delivers. Each iteration awaits a read result (value, done), extracts
the payload of the value with get_frame_data (panicking if it is not a frame),
applies `f`, stores the result with set_frame_data, awaits the write of the
updated frame, and only then breaks if `done` was set. An exhausted read list
means reader.read() never resolves again, so the loop suspends forever. -/
def process_stream (reads : List (FrameValue × Bool)) (f : Bytes → Bytes) : StreamOutcome :=
  match reads with
  | [] => StreamOutcome.suspended []
  | (value, done) :: rest =>
    match get_frame_data value with
    | none => StreamOutcome.faulted [] Fault.unrecognizedFrameType
    | some data =>
      match set_frame_data value (f data) with
      | none => StreamOutcome.faulted [] Fault.unrecognizedFrameType
      | some frame2 =>
        if done then StreamOutcome.returned [frame2]
        else prependWritten [frame2] (process_stream rest f)

/-- Read results a WHATWG ReadableStreamDefaultReader delivers for a finite
input stream of the given frames: every frame with done = false, then the
end-of-stream result (value: undefined, done: true). -/
def finiteStream (frames : List FrameValue) : List (FrameValue × Bool) :=
  frames.map (fun fr => (fr, false)) ++ [(FrameValue.undef, true)]

/-- Supported frame kinds: RtcEncodedAudioFrame and RtcEncodedVideoFrame. -/
def isSupportedFrame : FrameValue → Bool
  | FrameValue.audio _ _ => true
  | FrameValue.video _ _ => true
  | _ => false

/-- Effect of one pipeline iteration on a supported frame: the payload is
replaced by its transform, the metadata is untouched. -/
def transformFrame (f : Bytes → Bytes) : FrameValue → FrameValue
  | FrameValue.audio d m => FrameValue.audio (f d) m
  | FrameValue.video d m => FrameValue.video (f d) m
  | v => v

/-- Modelled from the spec: the WelcomePackageOut aggregate of the mls_ops
module, whose source is not under src/. "welcomePackage: {welcome: bytes,
ratchetTree: bytes}"; the opaque openmls artifacts are carried as their
serialized bytes. -/
structure WelcomePackageOut where
  welcome : Bytes
  ratchet_tree : Bytes
deriving DecidableEq, Repr

/-- Modelled from the spec: the WorkerResponse (ResultAggregate) of the
mls_ops module, whose source is not under src/: "four independently-optional
fields — newSafetyNumber: bytes?, keyPackage: bytes?, welcomePackage:
{welcome, ratchetTree}?, proposals: ordered sequence of bytes". Field order
follows the destructuring in lib.rs 106-111. -/
structure WorkerResponse where
  welcome : Option WelcomePackageOut
  proposals : List Bytes
  new_safety_number : Option Bytes
  key_pkg : Option Bytes
deriving DecidableEq, Repr

/-- Modelled from the spec: mls_ops::new_state, not under src/.
"InitializeIdentity(id): asks GroupEngine to create a fresh local identity
bound to id; produces no ResultAggregate (acknowledgment only)" — every field
of the returned aggregate is absent. The identity state itself lives inside
GroupEngine and is not observable at this layer. -/
def new_state (_user_id : String) : WorkerResponse :=
  { welcome := none, proposals := [], new_safety_number := none, key_pkg := none }

/-- Modelled from the spec: mls_ops::new_state_and_start_group, not under
src/. "InitializeIdentityAndGroup(id): creates identity, then originates a new
group with that identity as sole member"; the spec names no aggregate fields
for this command, so it is modelled like new_state. -/
def new_state_and_start_group (_user_id : String) : WorkerResponse :=
  { welcome := none, proposals := [], new_safety_number := none, key_pkg := none }

/-- Modelled from the spec: mls_ops::add_user, not under src/.
"AdmitMember(keyPackageBytes): GroupEngine may return any subset of: an
updated safety number, a welcome package for the new member, broadcast
proposal messages, and/or the local identity's own key package"; modelled as
returning all four, derived from the admitted key package bytes. -/
def add_user (key_pkg_bytes : Bytes) : WorkerResponse :=
  { welcome := some { welcome := 2 :: key_pkg_bytes, ratchet_tree := 3 :: key_pkg_bytes }
  , proposals := [4 :: key_pkg_bytes]
  , new_safety_number := some (0 :: key_pkg_bytes)
  , key_pkg := some (1 :: key_pkg_bytes) }

/-- Modelled from the spec: mls_ops::encrypt_msg, not under src/. GroupEngine
"encrypt(bytes) -> bytes" for a fixed session state; wrapping a payload into
an MLS application message is modelled as prepending a header byte. -/
def encrypt_msg (x : Bytes) : Bytes := 0 :: x

/-- Modelled from the spec: mls_ops::decrypt_msg, not under src/. GroupEngine
"decrypt(bytes) -> bytes" for the same fixed session state: strip the message
framing to recover the payload. -/
def decrypt_msg : Bytes → Bytes
  | [] => []
  | _ :: x => x

/-- Response envelope built by make_obj_and_save_buffers: the JS object
`{ type: ty, field_1: buffer_1, ... }` with its fields in insertion order. -/
structure Envelope where
  ty : String
  fields : List (String × Bytes)
deriving DecidableEq, Repr

/-- Entry of the buffers_list array. Array::push appends exactly one JS value,
so an entry is either a single ArrayBuffer or a JS Array of ArrayBuffers. -/
inductive BufferEntry where
  | arrayBuffer (b : Bytes)
  | jsarray (elems : List Bytes)
deriving DecidableEq, Repr

/-- Contents of a buffers_list entry as a list of ArrayBuffers. -/
def bufferEntryContents : BufferEntry → List Bytes
  | BufferEntry.arrayBuffer b => [b]
  | BufferEntry.jsarray g => g

/-- make_obj_and_save_buffers (lib.rs 218-237): the envelope object
`{ type: name, ... }` plus the Array of the ArrayBuffers stored in its fields,
in field order. -/
def make_obj_and_save_buffers (name : String) (named_bytestrings : List (String × Bytes)) :
    Envelope × List Bytes :=
  ({ ty := name, fields := named_bytestrings }, named_bytestrings.map Prod.snd)

/-- Response-formatting block of processEvent (lib.rs 104-171). obj_list and
buffers_list are pushed in lockstep, one (object, buffers-Array) pair per
emitted envelope; `pushes` records exactly those pushes in order. Note that
buffers_list.push(&buffers) appends the per-envelope Array itself as a single
element of buffers_list. -/
def marshal_response (ret : Option WorkerResponse) : List Envelope × List BufferEntry :=
  match ret with
  | none => ([], [])
  | some r =>
    let snPart := match r.new_safety_number with
      | some sn => [make_obj_and_save_buffers "newSafetyNumber" [("hash", sn)]]
      | none => []
    let kpPart := match r.key_pkg with
      | some kp => [make_obj_and_save_buffers "shareKeyPackage" [("keyPkg", kp)]]
      | none => []
    let welcomePart := match r.welcome with
      | some wp => [make_obj_and_save_buffers "sendMlsWelcome"
          [("welcome", wp.welcome), ("rtree", wp.ratchet_tree)]]
      | none => []
    let proposalPart := r.proposals.map (fun msg =>
      make_obj_and_save_buffers "sendMlsMessage" [("msg", msg)])
    let pushes := snPart ++ kpPart ++ welcomePart ++ proposalPart
    (pushes.map Prod.fst, pushes.map (fun p => BufferEntry.jsarray p.2))

/-- Result of the match on the event type in processEvent (lib.rs 61-99): the
optional WorkerResponse to marshal, a panic, or — for a stream command whose
reader stalls — suspension of the whole call. -/
inductive DispatchResult where
  | ok (ret : Option WorkerResponse)
  | fault (f : Fault)
  | suspends
deriving DecidableEq, Repr

/-- Command dispatch of processEvent (lib.rs 53-99). Field extraction mirrors
the chain of obj_get / as_string / dyn_into unwraps, in source order; a failed
unwrap on a field is the MalformedEventFault panic, and an unrecognized type
string reaches the explicit panic "unknown message type". -/
def dispatch (event : List (String × JsValue)) : DispatchResult :=
  match as_string (obj_get event "type") with
  | none => DispatchResult.fault Fault.malformedEvent
  | some ty =>
    if ty = "encryptStream" ∨ ty = "decryptStream" then
      match as_readable_stream (obj_get event "in") with
      | none => DispatchResult.fault Fault.malformedEvent
      | some reads =>
        match as_writable_stream (obj_get event "out") with
        | none => DispatchResult.fault Fault.malformedEvent
        | some _ =>
          match process_stream reads (if ty = "encryptStream" then encrypt_msg else decrypt_msg) with
          | StreamOutcome.returned _ => DispatchResult.ok none
          | StreamOutcome.faulted _ fl => DispatchResult.fault fl
          | StreamOutcome.suspended _ => DispatchResult.suspends
    else if ty = "initialize" then
      match as_string (obj_get event "id") with
      | none => DispatchResult.fault Fault.malformedEvent
      | some user_id => DispatchResult.ok (some (new_state user_id))
    else if ty = "initializeAndCreateGroup" then
      match as_string (obj_get event "id") with
      | none => DispatchResult.fault Fault.malformedEvent
      | some user_id => DispatchResult.ok (some (new_state_and_start_group user_id))
    else if ty = "userJoined" then
      match as_array_buffer (obj_get event "keyPkg") with
      | none => DispatchResult.fault Fault.malformedEvent
      | some key_pkg_bytes => DispatchResult.ok (some (add_user key_pkg_bytes))
    else DispatchResult.fault Fault.unknownCommand

/-- Observable outcome of a processEvent call: the returned
[obj_list, buffers_list] array, a panic, or suspension inside a stream
command. -/
inductive ProcOutcome where
  | returns (envelopes : List Envelope) (buffers : List BufferEntry)
  | faults (f : Fault)
  | suspends
deriving DecidableEq, Repr

/-- processEvent (lib.rs 53-172): dispatch the command, then marshal the
optional WorkerResponse into the [obj_list, buffers_list] reply. -/
def processEvent (event : List (String × JsValue)) : ProcOutcome :=
  match dispatch event with
  | DispatchResult.ok ret =>
    let p := marshal_response ret
    ProcOutcome.returns p.1 p.2
  | DispatchResult.fault f => ProcOutcome.faults f
  | DispatchResult.suspends => ProcOutcome.suspends

/-- Prepending no writes changes nothing. -/
theorem prependWritten_nil (o : StreamOutcome) : prependWritten [] o = o := by
  cases o <;> rfl

/-- Prepending writes composes by list append. -/
theorem prependWritten_append (a b : List FrameValue) (o : StreamOutcome) :
    prependWritten (a ++ b) o = prependWritten a (prependWritten b o) := by
  cases o <;> simp [prependWritten]

/-- Processing a block of supported frames (each with done = false) writes
their transforms in order and then continues with the remaining reads. -/
theorem process_stream_supported_leading (f : Bytes → Bytes) (good : List FrameValue)
    (rest : List (FrameValue × Bool)) (h : ∀ fr ∈ good, isSupportedFrame fr = true) :
    process_stream (good.map (fun fr => (fr, false)) ++ rest) f =
      prependWritten (good.map (transformFrame f)) (process_stream rest f) := by
  induction good with
  | nil => simp [prependWritten_nil]
  | cons hd tl ih =>
    have hhd : isSupportedFrame hd = true := h hd (List.mem_cons_self hd tl)
    have htl : ∀ fr ∈ tl, isSupportedFrame fr = true :=
      fun fr hf => h fr (List.mem_cons_of_mem hd hf)
    have hstep : prependWritten [transformFrame f hd]
          (prependWritten (tl.map (transformFrame f)) (process_stream rest f)) =
        prependWritten ((hd :: tl).map (transformFrame f)) (process_stream rest f) := by
      rw [← prependWritten_append]
      rfl
    cases hd with
    | audio d m =>
      simpa [process_stream, get_frame_data, set_frame_data, transformFrame, ih htl]
        using hstep
    | video d m =>
      simpa [process_stream, get_frame_data, set_frame_data, transformFrame, ih htl]
        using hstep
    | undef => simp [isSupportedFrame] at hhd
    | other => simp [isSupportedFrame] at hhd

/-- Claim C1: the pipeline writes all N transformed frames in input order, but
then, on the end-of-stream read (value: undefined, done: true), it passes the
undefined value to get_frame_data before checking done, and panics with
"frame value of unknown type" instead of returning normally. -/
theorem c1_finite_stream_faults_at_eos (frames : List FrameValue) (f : Bytes → Bytes)
    (h : ∀ fr ∈ frames, isSupportedFrame fr = true) :
    process_stream (finiteStream frames) f =
      StreamOutcome.faulted (frames.map (transformFrame f)) Fault.unrecognizedFrameType := by
  have hlead := process_stream_supported_leading f frames [(FrameValue.undef, true)] h
  simpa [finiteStream, process_stream, get_frame_data, prependWritten] using hlead

/-- Witness for C1: a concrete finite stream of one audio and one video frame
is written out transformed and in order, and then the pipeline faults at the
end-of-stream read instead of returning. -/
theorem c1_finite_stream_faults_at_eos_witness :
    process_stream (finiteStream [FrameValue.audio [1, 2] [9], FrameValue.video [3] [8]])
        encrypt_msg =
      StreamOutcome.faulted [FrameValue.audio [0, 1, 2] [9], FrameValue.video [0, 3] [8]]
        Fault.unrecognizedFrameType :=
  c1_finite_stream_faults_at_eos [FrameValue.audio [1, 2] [9], FrameValue.video [3] [8]]
    encrypt_msg (by decide)

/-- Claim C3: a read delivering a value that is neither an audio nor a video
frame makes the pipeline panic with UnrecognizedFrameTypeFault: no frame is
written for it, and no later read is processed — the loop aborts rather than
skipping the frame. -/
theorem c3_unrecognized_frame_aborts (good : List FrameValue) (bad : FrameValue)
    (rest : List (FrameValue × Bool)) (f : Bytes → Bytes)
    (hg : ∀ fr ∈ good, isSupportedFrame fr = true) (hb : isSupportedFrame bad = false) :
    process_stream (good.map (fun fr => (fr, false)) ++ (bad, false) :: rest) f =
      StreamOutcome.faulted (good.map (transformFrame f)) Fault.unrecognizedFrameType := by
  have hbd : get_frame_data bad = none := by
    cases bad <;> simp_all [isSupportedFrame, get_frame_data]
  have hlead := process_stream_supported_leading f good ((bad, false) :: rest) hg
  simpa [process_stream, hbd, prependWritten] using hlead

/-- Witness for C3: after one good video frame, a non-frame read value aborts
the loop with the fault; the later audio frame is never written. -/
theorem c3_unrecognized_frame_aborts_witness :
    process_stream
        [(FrameValue.video [7] [1], false), (FrameValue.other, false),
          (FrameValue.audio [5] [6], false)] encrypt_msg =
      StreamOutcome.faulted [FrameValue.video [0, 7] [1]] Fault.unrecognizedFrameType :=
  c3_unrecognized_frame_aborts [FrameValue.video [7] [1]] FrameValue.other
    [(FrameValue.audio [5] [6], false)] encrypt_msg (by decide) (by decide)

/-- Claim C9: set_frame_data replaces only the payload of a supported frame:
the frame kind and the host-owned metadata are returned unchanged, with the
new data in place of the old. -/
theorem c9_set_frame_data_only_payload (d m new_data : Bytes) :
    set_frame_data (FrameValue.audio d m) new_data = some (FrameValue.audio new_data m) ∧
    set_frame_data (FrameValue.video d m) new_data = some (FrameValue.video new_data m) :=
  ⟨rfl, rfl⟩

/-- Counterexample to claim C2: for the fully populated aggregate with
newSafetyNumber [0], keyPackage [1], welcomePackage ([2], [3]) and proposals
[[4], [5]], buffers_list is the five per-envelope Arrays — Array.push appends
each envelope's buffers Array as a single element — and not the flat
six-element sequence of ArrayBuffers [S, K, W, R, P1, P2] the claim requires. -/
theorem c2_buffers_not_flat_counterexample :
    (marshal_response (some
        { welcome := some { welcome := [2], ratchet_tree := [3] },
          proposals := [[4], [5]], new_safety_number := some [0], key_pkg := some [1] })).2 =
      [BufferEntry.jsarray [[0]], BufferEntry.jsarray [[1]], BufferEntry.jsarray [[2], [3]],
        BufferEntry.jsarray [[4]], BufferEntry.jsarray [[5]]] ∧
    (marshal_response (some
        { welcome := some { welcome := [2], ratchet_tree := [3] },
          proposals := [[4], [5]], new_safety_number := some [0], key_pkg := some [1] })).2 ≠
      [BufferEntry.arrayBuffer [0], BufferEntry.arrayBuffer [1], BufferEntry.arrayBuffer [2],
        BufferEntry.arrayBuffer [3], BufferEntry.arrayBuffer [4], BufferEntry.arrayBuffer [5]] := by
  constructor
  · rfl
  · decide

/-- Claim C2 amended: marshaling emits the envelopes in the fixed order
newSafetyNumber, keyPackage, welcomePackage, then each proposal in original
order, with the specified tags and field names; the buffers output holds one
entry per emitted envelope — the JS Array of that envelope's binary fields in
left-to-right order — rather than the flat field sequence itself, and
flattening those per-envelope entries yields exactly [S, K, W, R, P1, P2]. -/
theorem c2_amended_buffers_grouped :
    (∀ ret, (marshal_response ret).2 =
      (marshal_response ret).1.map (fun e => BufferEntry.jsarray (e.fields.map Prod.snd))) ∧
    ∀ S K W R P1 P2 : Bytes,
      marshal_response (some
          { welcome := some { welcome := W, ratchet_tree := R },
            proposals := [P1, P2], new_safety_number := some S, key_pkg := some K }) =
        ([{ ty := "newSafetyNumber", fields := [("hash", S)] },
          { ty := "shareKeyPackage", fields := [("keyPkg", K)] },
          { ty := "sendMlsWelcome", fields := [("welcome", W), ("rtree", R)] },
          { ty := "sendMlsMessage", fields := [("msg", P1)] },
          { ty := "sendMlsMessage", fields := [("msg", P2)] }],
         [BufferEntry.jsarray [S], BufferEntry.jsarray [K], BufferEntry.jsarray [W, R],
          BufferEntry.jsarray [P1], BufferEntry.jsarray [P2]]) ∧
      ((marshal_response (some
          { welcome := some { welcome := W, ratchet_tree := R },
            proposals := [P1, P2], new_safety_number := some S,
            key_pkg := some K })).2.map bufferEntryContents).flatten = [S, K, W, R, P1, P2] := by
  constructor
  · intro ret
    cases ret with
    | none => rfl
    | some r =>
      obtain ⟨w, props, sn, kp⟩ := r
      cases sn <;> cases kp <;> cases w <;>
        simp [marshal_response, make_obj_and_save_buffers, List.map_map, Function.comp]
  · intro S K W R P1 P2
    exact ⟨rfl, rfl⟩

/-- Claim C6: marshaling an absent aggregate, or an aggregate with every
optional field absent and an empty proposals sequence, yields no envelopes and
no buffers. -/
theorem c6_empty_marshal :
    marshal_response none = ([], []) ∧
    marshal_response (some
      { welcome := none, proposals := [], new_safety_number := none,
        key_pkg := none }) = ([], []) :=
  ⟨rfl, rfl⟩

/-- Claim C8 (GroupEngine modelled from the spec, mls_ops not being under
src/): for a fixed session state the decrypt transform inverts the encrypt
transform on every payload. -/
theorem c8_decrypt_encrypt_roundtrip (x : Bytes) : decrypt_msg (encrypt_msg x) = x := rfl

/-- Counterexample to claim C4: an event with no type field does not reach the
explicit unknown-message-type panic; it panics at the as_string unwrap during
field extraction — the MalformedEventFault panic — so an absent discriminator
does not raise UnknownCommandFault. -/
theorem c4_absent_type_counterexample :
    processEvent [] = ProcOutcome.faults Fault.malformedEvent ∧
    processEvent [] ≠ ProcOutcome.faults Fault.unknownCommand := by
  constructor
  · rfl
  · decide

/-- Claim C4 amended: a command envelope whose type field is absent or not a
string hits the field-extraction unwrap panic, MalformedEventFault; one whose
type is a string outside the five known command names hits the explicit
unknown-message-type panic, UnknownCommandFault. In both cases the outcome is
only the fault — no handling of the command is performed. -/
theorem c4_amended_unknown_command (event : List (String × JsValue)) :
    (as_string (obj_get event "type") = none →
      processEvent event = ProcOutcome.faults Fault.malformedEvent) ∧
    ∀ s, as_string (obj_get event "type") = some s →
      s ∉ ["initialize", "initializeAndCreateGroup", "userJoined", "encryptStream",
        "decryptStream"] →
      processEvent event = ProcOutcome.faults Fault.unknownCommand := by
  constructor
  · intro h
    simp [processEvent, dispatch, h]
  · intro s hs hmem
    simp only [List.mem_cons, List.not_mem_nil, or_false, not_or] at hmem
    obtain ⟨h1, h2, h3, h4, h5⟩ := hmem
    simp [processEvent, dispatch, hs, h1, h2, h3, h4, h5]

/-- Witness for the amended C4 at concrete events: the empty envelope is
malformed, and an unrecognized string discriminator is an unknown command. -/
theorem c4_amended_unknown_command_witness :
    processEvent [] = ProcOutcome.faults Fault.malformedEvent ∧
    processEvent [("type", JsValue.str "frobnicate")] =
      ProcOutcome.faults Fault.unknownCommand :=
  ⟨(c4_amended_unknown_command []).1 rfl,
   (c4_amended_unknown_command [("type", JsValue.str "frobnicate")]).2 "frobnicate" rfl
     (by decide)⟩

/-- Claim C5: a known command whose required field is absent or of the wrong
shape hits a field-extraction unwrap panic — MalformedEventFault — and the
outcome is only the fault: no handler runs and nothing is marshaled. -/
theorem c5_missing_field_malformed (event : List (String × JsValue)) (ty : String)
    (hty : as_string (obj_get event "type") = some ty)
    (hbad :
      ((ty = "initialize" ∨ ty = "initializeAndCreateGroup") ∧
        as_string (obj_get event "id") = none) ∨
      (ty = "userJoined" ∧ as_array_buffer (obj_get event "keyPkg") = none) ∨
      ((ty = "encryptStream" ∨ ty = "decryptStream") ∧
        (as_readable_stream (obj_get event "in") = none ∨
          as_writable_stream (obj_get event "out") = none))) :
    processEvent event = ProcOutcome.faults Fault.malformedEvent := by
  rcases hbad with ⟨hty2 | hty2, hid⟩ | ⟨hty2, hkp⟩ | ⟨hty2 | hty2, hstreams⟩ <;> subst hty2
  · simp [processEvent, dispatch, hty, hid]
  · simp [processEvent, dispatch, hty, hid]
  · simp [processEvent, dispatch, hty, hkp]
  · rcases hstreams with hin | hout
    · simp [processEvent, dispatch, hty, hin]
    · cases hrs : as_readable_stream (obj_get event "in") with
      | none => simp [processEvent, dispatch, hty, hrs]
      | some rs => simp [processEvent, dispatch, hty, hrs, hout]
  · rcases hstreams with hin | hout
    · simp [processEvent, dispatch, hty, hin]
    · cases hrs : as_readable_stream (obj_get event "in") with
      | none => simp [processEvent, dispatch, hty, hrs]
      | some rs => simp [processEvent, dispatch, hty, hrs, hout]

/-- Witness for C5 at concrete events: userJoined whose keyPkg is a string
rather than an ArrayBuffer, and encryptStream with no stream handles. -/
theorem c5_missing_field_malformed_witness :
    processEvent [("type", JsValue.str "userJoined"), ("keyPkg", JsValue.str "oops")] =
      ProcOutcome.faults Fault.malformedEvent ∧
    processEvent [("type", JsValue.str "encryptStream")] =
      ProcOutcome.faults Fault.malformedEvent :=
  ⟨c5_missing_field_malformed [("type", JsValue.str "userJoined"), ("keyPkg", JsValue.str "oops")]
      "userJoined" rfl (Or.inr (Or.inl ⟨rfl, rfl⟩)),
   c5_missing_field_malformed [("type", JsValue.str "encryptStream")] "encryptStream" rfl
      (Or.inr (Or.inr ⟨Or.inl rfl, Or.inl rfl⟩))⟩

/-- Claim C7 (mls_ops::new_state modelled from the spec): dispatching
initialize with a string id calls new_state with that id, and the marshaled
reply carries no envelopes and no buffers — an acknowledgment only. -/
theorem c7_initialize_ack_only (event : List (String × JsValue)) (user_id : String)
    (hty : as_string (obj_get event "type") = some "initialize")
    (hid : as_string (obj_get event "id") = some user_id) :
    processEvent event = ProcOutcome.returns [] [] ∧
    marshal_response (some (new_state user_id)) = ([], []) := by
  constructor
  · simp [processEvent, dispatch, hty, hid, new_state, marshal_response]
  · rfl

/-- Witness for C7 at a concrete initialize envelope. -/
theorem c7_initialize_ack_only_witness :
    processEvent [("type", JsValue.str "initialize"), ("id", JsValue.str "alice")] =
      ProcOutcome.returns [] [] ∧
    marshal_response (some (new_state "alice")) = ([], []) :=
  c7_initialize_ack_only [("type", JsValue.str "initialize"), ("id", JsValue.str "alice")]
    "alice" rfl rfl

/-- Claim C10: processEvent replies with the [objects, buffers] pair for every
command kind; an encryptStream or decryptStream command whose stream loop
returns yields the empty pair ([], []), identical to the initialize
acknowledgment — a completed stream reply is indistinguishable from a void
acknowledgment — and userJoined likewise returns the pair form. -/
theorem c10_stream_completion_empty_reply (reads reads2 : List (FrameValue × Bool))
    (w w2 : List FrameValue) (user_id : String) (kp : Bytes)
    (henc : process_stream reads encrypt_msg = StreamOutcome.returned w)
    (hdec : process_stream reads2 decrypt_msg = StreamOutcome.returned w2) :
    processEvent [("type", JsValue.str "encryptStream"), ("in", JsValue.readableStream reads),
        ("out", JsValue.writableStream)] = ProcOutcome.returns [] [] ∧
    processEvent [("type", JsValue.str "decryptStream"), ("in", JsValue.readableStream reads2),
        ("out", JsValue.writableStream)] = ProcOutcome.returns [] [] ∧
    processEvent [("type", JsValue.str "initialize"), ("id", JsValue.str user_id)] =
      ProcOutcome.returns [] [] ∧
    processEvent [("type", JsValue.str "userJoined"), ("keyPkg", JsValue.arrayBuffer kp)] =
      ProcOutcome.returns (marshal_response (some (add_user kp))).1
        (marshal_response (some (add_user kp))).2 := by
  refine ⟨?_, ?_, ?_, ?_⟩
  · simp [processEvent, dispatch, obj_get, List.lookup, as_string, as_readable_stream,
      as_writable_stream, henc, marshal_response]
  · simp [processEvent, dispatch, obj_get, List.lookup, as_string, as_readable_stream,
      as_writable_stream, hdec, marshal_response]
  · simp [processEvent, dispatch, obj_get, List.lookup, as_string, new_state, marshal_response]
  · simp [processEvent, dispatch, obj_get, List.lookup, as_string, as_array_buffer]

/-- Witness for C10: concrete streams whose final read carries a frame with
done set make the loop return, and the replies coincide with the initialize
acknowledgment. -/
theorem c10_stream_completion_empty_reply_witness :
    processEvent [("type", JsValue.str "encryptStream"),
        ("in", JsValue.readableStream [(FrameValue.audio [1] [2], true)]),
        ("out", JsValue.writableStream)] = ProcOutcome.returns [] [] ∧
    processEvent [("type", JsValue.str "decryptStream"),
        ("in", JsValue.readableStream [(FrameValue.video [0, 7] [3], true)]),
        ("out", JsValue.writableStream)] = ProcOutcome.returns [] [] ∧
    processEvent [("type", JsValue.str "initialize"), ("id", JsValue.str "alice")] =
      ProcOutcome.returns [] [] ∧
    processEvent [("type", JsValue.str "userJoined"), ("keyPkg", JsValue.arrayBuffer [9])] =
      ProcOutcome.returns (marshal_response (some (add_user [9]))).1
        (marshal_response (some (add_user [9]))).2 :=
  c10_stream_completion_empty_reply [(FrameValue.audio [1] [2], true)]
    [(FrameValue.video [0, 7] [3], true)] [FrameValue.audio [0, 1] [2]]
    [FrameValue.video [7] [3]] "alice" [9] (by decide) (by decide)

end MlsWorker
